import Mathlib

/-!
Verification of the AI-assisted annotation core of `backend/main.py`.

The embedding models Python exceptions with an explicit `Except PyErr`
monad, Python strings as Lean `String` (sequences of Unicode code
points, matching Python's `len` and slicing semantics), `json.loads`
as a small recursive-descent parser over the JSON fragment relevant to
this program (objects, arrays, strings with the common escapes,
integers, booleans, null; floats and \u escapes are outside the
modelled fragment), and the external model client plus the
`GEMINI_API_KEY` configuration probe as an `Env` record injected into
the two public operations.  Each operation also returns the list of
calls it issued to the external client, so that "the client is never
invoked" is directly expressible.
-/

/-- JSON values as produced by `json.loads` (objects keep textual order;
duplicate keys resolve to the last occurrence at lookup time). -/
inductive Json where
  | null : Json
  | bool (b : Bool) : Json
  | num (n : Int) : Json
  | str (s : String) : Json
  | arr (items : List Json) : Json
  | obj (fields : List (String × Json)) : Json

/-- Kinds of Python exception relevant to this core.  All of them derive
from `Exception`, so the `except Exception` handlers in `main.py` catch
every one of them. -/
inductive PyErr where
  | jsonDecodeError : PyErr
  | keyError (key : String) : PyErr
  | typeError : PyErr
  | invocationError : PyErr
  | timeoutError : PyErr

/-- Whitespace as stripped by Python `str.strip()` (ASCII scope, which
covers every input in this development). -/
def is_py_space (c : Char) : Bool :=
  " \t\n\r\x0b\x0c".data.contains c

/-- Whitespace skipped between JSON tokens (RFC 8259). -/
def is_json_space (c : Char) : Bool :=
  " \t\n\r".data.contains c

/-- Python `s.strip()` on the underlying code-point list. -/
def py_strip_list (l : List Char) : List Char :=
  List.rdropWhile is_py_space (l.dropWhile is_py_space)

/-- Boolean test that `pat` is an initial segment of `l`
(Python `str.startswith`). -/
def begins_with : List Char → List Char → Bool
  | [], _ => true
  | _ :: _, [] => false
  | p :: ps, c :: cs => p == c && begins_with ps cs

/-- Boolean test that `pat` is a final segment of `l`
(Python `str.endswith`). -/
def ends_with (pat l : List Char) : Bool :=
  begins_with pat.reverse l.reverse

/-- Python `needle in haystack`: contiguous-substring containment. -/
def contains_list (needle : List Char) : List Char → Bool
  | [] => needle.isEmpty
  | c :: rest => begins_with needle (c :: rest) || contains_list needle rest

/-- Python `str.lower` (ASCII scope; the code points appearing in this
program's keyword table are unaffected by case folding beyond ASCII). -/
def py_lower (s : String) : String :=
  ⟨s.data.map Char.toLower⟩

/-- Lookup in a parsed JSON object, resolving duplicate keys to the last
occurrence, as a Python `dict` built by `json.loads` would. -/
def dict_find : List (String × Json) → String → Option Json
  | [], _ => none
  | (k, v) :: rest, key =>
    match dict_find rest key with
    | some r => some r
    | none => if k == key then some v else none

/-- Python `data[key]`: `KeyError` on a missing key, `TypeError` when
`data` is not a mapping. -/
def py_getitem (d : Json) (key : String) : Except PyErr Json :=
  match d with
  | .obj fields =>
    match dict_find fields key with
    | some v => .ok v
    | none => .error (.keyError key)
  | _ => .error .typeError

/-- The escape table of the modelled JSON fragment, as
(escape letter, decoded character) pairs. -/
def escape_pairs : List (Char × Char) :=
  [('"', '"'), ('\\', '\\'), ('/', '/'), ('b', '\x08'), ('f', '\x0c'),
   ('n', '\n'), ('r', '\r'), ('t', '\t')]

/-- JSON string-escape decoding for the escapes in the modelled fragment. -/
def escape_char (e : Char) : Option Char :=
  (escape_pairs.find? (fun kv => kv.1 == e)).map Prod.snd

/-- Parse the body of a JSON string after the opening quote, returning
the decoded characters and the input after the closing quote. -/
def parse_string_body : List Char → Option (List Char × List Char)
  | [] => none
  | '"' :: rest => some ([], rest)
  | '\\' :: e :: rest =>
    match escape_char e with
    | none => none
    | some c =>
      match parse_string_body rest with
      | none => none
      | some (s, r) => some (c :: s, r)
  | c :: rest =>
    match parse_string_body rest with
    | none => none
    | some (s, r) => some (c :: s, r)

/-- Numeric value of a digit run. -/
def digits_to_nat (ds : List Char) : Nat :=
  ds.foldl (fun n c => n * 10 + (c.toNat - '0'.toNat)) 0

/-- Parse a JSON integer (the numeric part of the modelled fragment). -/
def parse_number (l : List Char) : Option (Json × List Char) :=
  match l with
  | '-' :: rest =>
    match rest.span Char.isDigit with
    | (ds, rest') => if ds.isEmpty then none else some (.num (-(digits_to_nat ds : Int)), rest')
  | _ =>
    match l.span Char.isDigit with
    | (ds, rest') => if ds.isEmpty then none else some (.num (digits_to_nat ds), rest')

mutual

/-- Fuel-indexed recursive-descent parser for a JSON value.  The three
keyword literals are recognised up front; everything else dispatches on
the first character. -/
def parse_value : Nat → List Char → Option (Json × List Char)
  | 0, _ => none
  | Nat.succ fuel, l =>
    let t := l.dropWhile is_json_space
    if begins_with "null".data t then some (.null, t.drop 4)
    else if begins_with "true".data t then some (.bool true, t.drop 4)
    else if begins_with "false".data t then some (.bool false, t.drop 5)
    else
      match t with
      | '"' :: rest =>
        match parse_string_body rest with
        | some (s, r) => some (.str ⟨s⟩, r)
        | none => none
      | '[' :: rest =>
        match rest.dropWhile is_json_space with
        | ']' :: r => some (.arr [], r)
        | _ => parse_array_rest fuel rest []
      | '{' :: rest =>
        match rest.dropWhile is_json_space with
        | '}' :: r => some (.obj [], r)
        | _ => parse_object_rest fuel rest []
      | rest => parse_number rest

/-- Parse the remaining comma-separated items of a non-empty array. -/
def parse_array_rest : Nat → List Char → List Json → Option (Json × List Char)
  | 0, _, _ => none
  | Nat.succ fuel, l, acc =>
    match parse_value fuel l with
    | none => none
    | some (v, r) =>
      match r.dropWhile is_json_space with
      | ',' :: r2 => parse_array_rest fuel r2 (v :: acc)
      | ']' :: r2 => some (.arr (v :: acc).reverse, r2)
      | _ => none

/-- Parse the remaining key-value pairs of a non-empty object. -/
def parse_object_rest : Nat → List Char → List (String × Json) → Option (Json × List Char)
  | 0, _, _ => none
  | Nat.succ fuel, l, acc =>
    match l.dropWhile is_json_space with
    | '"' :: rest =>
      match parse_string_body rest with
      | none => none
      | some (k, r) =>
        match r.dropWhile is_json_space with
        | ':' :: r2 =>
          match parse_value fuel r2 with
          | none => none
          | some (v, r3) =>
            match r3.dropWhile is_json_space with
            | ',' :: r4 => parse_object_rest fuel r4 ((⟨k⟩, v) :: acc)
            | '}' :: r4 => some (.obj ((⟨k⟩, v) :: acc).reverse, r4)
            | _ => none
        | _ => none
    | _ => none

end

/-- Model of Python `json.loads` on the JSON fragment relevant to this
program: the whole input, less surrounding JSON whitespace, must be one
value; anything else raises `json.JSONDecodeError`. -/
def json_loads (l : List Char) : Except PyErr Json :=
  match parse_value (l.length + 1) l with
  | some (v, rest) =>
    if (rest.dropWhile is_json_space).isEmpty then .ok v else .error .jsonDecodeError
  | none => .error .jsonDecodeError

/-- Embedding of `_parse_llm_json_response` (`main.py` lines 70-77):
strip, remove a leading markdown json fence marker and a trailing fence
marker if present, strip again, then `json.loads`. -/
def _parse_llm_json_response (response_content : String) : Except PyErr Json :=
  let j0 := py_strip_list response_content.data
  let j1 := if begins_with "```json".data j0 then j0.drop 7 else j0
  let j2 := if ends_with "```".data j1 then j1.take (j1.length - 3) else j1
  json_loads (py_strip_list j2)

/-- Embedding of the `summary` computation in `_fallback_summary_and_category`
(`main.py` line 81): `content[:50] + ("..." if len(content) > 50 else "")`. -/
def fallback_summary (content : String) : String :=
  ⟨content.data.take 50⟩ ++ (if 50 < content.data.length then "..." else "")

/-- The initial `categories` value in `_fallback_summary_and_category`
(`main.py` line 82), returned when no keyword matches. -/
def default_categories : List String := ["一般", "テキスト生成", "その他"]

/-- Embedding of `keyword_map` (`main.py` lines 83-92).  Python dicts
preserve insertion order, so the scan order is this list order. -/
def keyword_map : List (String × List String) :=
  [("コード", ["プログラミング", "コード生成", "開発"]),
   ("python", ["プログラミング", "Python", "開発"]),
   ("翻訳", ["翻訳", "言語", "ローカライゼーション"]),
   ("要約", ["要約", "テキスト処理", "分析"]),
   ("メール", ["ビジネス", "メール作成", "コミュニケーション"]),
   ("ブログ", ["ライティング", "ブログ", "コンテンツ作成"]),
   ("マーケティング", ["マーケティング", "広告", "ビジネス"]),
   ("教育", ["教育", "学習", "チュートリアル"])]

/-- The per-entry test of the scan loop (`main.py` line 95):
`keyword.lower() in content_lower`. -/
def keyword_match (content_lower : String) (kv : String × List String) : Bool :=
  contains_list (py_lower kv.1).data content_lower.data

/-- The `for ... if ... break` scan over `keyword_map`
(`main.py` lines 94-97): first match in list order wins, otherwise the
initial `categories` value stands. -/
def scan_keywords (content_lower : String) : List (String × List String) → List String
  | [] => default_categories
  | kv :: rest =>
    if keyword_match content_lower kv then kv.2 else scan_keywords content_lower rest

/-- The `categories` value produced by `_fallback_summary_and_category`
for a given `content` (`main.py` lines 82-97). -/
def _fallback_categories (content : String) : List String :=
  scan_keywords (py_lower content) keyword_map

/-- Embedding of `_fallback_summary_and_category` (`main.py` lines 79-98),
returning the dict literal of line 98 as a JSON object. -/
def _fallback_summary_and_category (content : String) : Json :=
  .obj [("summary", .str (fallback_summary content)),
        ("suggested_categories", .arr ((_fallback_categories content).map .str))]

/-- Embedding of the `fallback_title` computation (`main.py` line 137):
`content[:30] + "..." if len(content) > 30 else content` — by Python
precedence, `(content[:30] + "...") if len(content) > 30 else content`. -/
def fallback_title (content : String) : String :=
  if 30 < content.data.length then ⟨content.data.take 30⟩ ++ "..." else content

/-- The argument records passed to the `ChatGoogleGenerativeAI`
constructor.  Temperature is recorded in tenths to stay in exact
arithmetic.  `timeout` is the constructor's timeout parameter; the
source passes no such argument at either call site, leaving the
client's no-timeout default. -/
structure ChatGoogleGenerativeAIArgs where
  model : String
  temperature_tenths : Nat
  timeout : Option Nat

/-- Constructor arguments at `main.py` line 107 (summary path):
`model="gemini-2.5-flash", temperature=0.2`, no timeout argument. -/
def summary_llm_args : ChatGoogleGenerativeAIArgs :=
  { model := "gemini-2.5-flash", temperature_tenths := 2, timeout := none }

/-- Constructor arguments at `main.py` line 145 (title/tags path):
`model="gemini-2.5-flash", temperature=0.3`, no timeout argument. -/
def title_llm_args : ChatGoogleGenerativeAIArgs :=
  { model := "gemini-2.5-flash", temperature_tenths := 3, timeout := none }

/-- One call issued to the external model client: the constructor
arguments of the client it went through and the prompt text. -/
def LlmCall := ChatGoogleGenerativeAIArgs × String

/-- The ambient environment of the two operations: whether
`os.getenv("GEMINI_API_KEY")` is truthy, and the behavior of
`llm.invoke` (a reply text, or any raised exception). -/
structure Env where
  gemini_api_key : Bool
  invoke : ChatGoogleGenerativeAIArgs → String → Except PyErr String

/-- The `category_hint` string (`main.py` line 109). -/
def category_hint (existing_categories : List String) : String :=
  if existing_categories.isEmpty then "まだカテゴリはありません。"
  else "既存のカテゴリの例です: " ++ String.intercalate ", " existing_categories

/-- The `prompt_template` f-string of `generate_summary_and_category`
(`main.py` lines 111-125). -/
def summary_prompt (content : String) (existing_categories : List String) : String :=
  "\n        以下のプロンプトの内容を分析し、「1行での短い要約(summary)」と、このプロンプトに最も関連性の高い「カテゴリ(suggested_categories)」を3つ提案してください。\n        "
    ++ category_hint existing_categories
    ++ " 提案するカテゴリは既存の例に囚われる必要はありませんが、参考にしてください。\n\n        回答は必ず以下のJSON形式で返してください。\n        \x7b\n          \"summary\": \"（ここに1行の短い要約）\",\n          \"suggested_categories\": [\"（カテゴリ1）\", \"（カテゴリ2）\", \"（カテゴリ3）\"]\n        \x7d\n\n        プロンプト:\n        ---\n        "
    ++ content
    ++ "\n        ---\n        "

/-- The `prompt_template` f-string of `generate_title_and_tags`
(`main.py` lines 147-159). -/
def title_prompt (content : String) : String :=
  "\n        以下のプロンプトの内容を分析し、最適な「タイトル(title)」と「タグ(tags)」を生成してください。\n        回答は必ず以下のJSON形式で返してください。\n        \x7b\n          \"title\": \"（ここにタイトル）\",\n          \"tags\": \"（ここにカンマ区切りのタグ）\"\n        \x7d\n\n        プロンプト:\n        ---\n        "
    ++ content
    ++ "\n        ---\n        "

/-- The body of the `try` block of `generate_summary_and_category`
(`main.py` lines 107-129): invoke the model and parse its reply; any
step may raise. -/
def summary_ai_attempt (env : Env) (content : String) (existing_categories : List String) :
    Except PyErr Json :=
  match env.invoke summary_llm_args (summary_prompt content existing_categories) with
  | .error e => .error e
  | .ok response => _parse_llm_json_response response

/-- Embedding of `generate_summary_and_category` (`main.py` lines
100-133), paired with the list of calls issued to the external client. -/
def generate_summary_and_category (env : Env) (content : String)
    (existing_categories : List String) : Except PyErr Json × List LlmCall :=
  if env.gemini_api_key = false then
    (.ok (_fallback_summary_and_category content), [])
  else
    match summary_ai_attempt env content existing_categories with
    | .ok data => (.ok data, [(summary_llm_args, summary_prompt content existing_categories)])
    | .error _ =>
      (.ok (_fallback_summary_and_category content),
       [(summary_llm_args, summary_prompt content existing_categories)])

/-- The body of the `try` block of `generate_title_and_tags`
(`main.py` lines 145-163): invoke, parse, then `data["title"]` and
`data["tags"]` in that order; any step may raise. -/
def title_ai_attempt (env : Env) (content : String) : Except PyErr (Json × Json) :=
  match env.invoke title_llm_args (title_prompt content) with
  | .error e => .error e
  | .ok response =>
    match _parse_llm_json_response response with
    | .error e => .error e
    | .ok data =>
      match py_getitem data "title" with
      | .error e => .error e
      | .ok title =>
        match py_getitem data "tags" with
        | .error e => .error e
        | .ok tags => .ok (title, tags)

/-- Embedding of `generate_title_and_tags` (`main.py` lines 135-167),
paired with the list of calls issued to the external client. -/
def generate_title_and_tags (env : Env) (content : String) :
    Except PyErr (Json × Json) × List LlmCall :=
  if env.gemini_api_key = false then
    (.ok (.str (fallback_title content), .str ""), [])
  else
    match title_ai_attempt env content with
    | .ok p => (.ok p, [(title_llm_args, title_prompt content)])
    | .error _ =>
      (.ok (.str (fallback_title content), .str ""), [(title_llm_args, title_prompt content)])

/-- Well-formedness of a `CategorySuggestion` per the spec's data model:
a mapping carrying the `summary` and `suggested_categories` keys. -/
def is_category_suggestion : Json → Bool
  | .obj fields => (dict_find fields "summary").isSome && (dict_find fields "suggested_categories").isSome
  | _ => false

section StripLemmas

variable {α : Type} (p : α → Bool)

/-- Dropping-while over a block whose members all satisfy the predicate
skips the whole block. -/
theorem dropWhile_append_of_forall (w l : List α) (h : ∀ c ∈ w, p c = true) :
    (w ++ l).dropWhile p = l.dropWhile p := by
  induction w with
  | nil => rfl
  | cons c w ih =>
    have hc : p c = true := h c (List.mem_cons_self c w)
    simp only [List.cons_append, List.dropWhile_cons, hc, if_true]
    exact ih fun x hx => h x (List.mem_cons_of_mem c hx)

/-- Right-hand analogue of `dropWhile_append_of_forall`. -/
theorem rdropWhile_append_of_forall (l w : List α) (h : ∀ c ∈ w, p c = true) :
    List.rdropWhile p (l ++ w) = List.rdropWhile p l := by
  induction w generalizing l with
  | nil => simp
  | cons c w ih =>
    have hc : p c = true := h c (List.mem_cons_self c w)
    have : l ++ c :: w = (l ++ [c]) ++ w := by simp
    rw [this, ih (l ++ [c]) (fun x hx => h x (List.mem_cons_of_mem c hx)),
      List.rdropWhile_concat_pos p l c hc]

/-- When the drop-while result is non-empty, appending on the right
commutes with the drop. -/
theorem dropWhile_append_of_ne_nil (l w : List α) (h : l.dropWhile p ≠ []) :
    (l ++ w).dropWhile p = l.dropWhile p ++ w := by
  induction l with
  | nil => exact absurd rfl h
  | cons c cs ih =>
    by_cases hc : p c = true
    · simp only [List.dropWhile_cons, hc, if_true] at h ⊢
      simp only [List.cons_append, List.dropWhile_cons, hc, if_true]
      exact ih h
    · simp only [List.cons_append, List.dropWhile_cons, hc]
      simp [hc]

/-- A stripped list absorbs whitespace padding on either side. -/
theorem py_strip_list_pad (w1 w2 l : List Char)
    (h1 : ∀ c ∈ w1, is_py_space c = true) (h2 : ∀ c ∈ w2, is_py_space c = true) :
    py_strip_list (w1 ++ l ++ w2) = py_strip_list l := by
  unfold py_strip_list
  rw [List.append_assoc, dropWhile_append_of_forall is_py_space w1 (l ++ w2) h1]
  by_cases hl : l.dropWhile is_py_space = []
  · have hall : ∀ c ∈ l, is_py_space c = true := List.dropWhile_eq_nil_iff.mp hl
    rw [hl, dropWhile_append_of_forall is_py_space l w2 hall,
      List.dropWhile_eq_nil_iff.mpr h2]
  · rw [dropWhile_append_of_ne_nil is_py_space l w2 hl,
      rdropWhile_append_of_forall is_py_space _ w2 h2]

/-- Stripping is idempotent. -/
theorem py_strip_list_idem (l : List Char) :
    py_strip_list (py_strip_list l) = py_strip_list l := by
  have key : ∀ A : List Char, A.dropWhile is_py_space = A →
      (List.rdropWhile is_py_space A).dropWhile is_py_space
        = List.rdropWhile is_py_space A := by
    intro A hA
    obtain ⟨t, ht⟩ := List.rdropWhile_prefix is_py_space A
    cases hS : List.rdropWhile is_py_space A with
    | nil => rfl
    | cons a xs =>
      have hAeq : A = a :: (xs ++ t) := by
        rw [← ht, hS, List.cons_append]
      have ha : is_py_space a = false := by
        cases hpa : is_py_space a with
        | false => rfl
        | true =>
          exfalso
          have h0 := hA
          rw [hAeq, List.dropWhile_cons, hpa] at h0
          have h1 : List.dropWhile is_py_space (xs ++ t) = a :: (xs ++ t) := by
            simpa using h0
          have h2 : (List.dropWhile is_py_space (xs ++ t)).length ≤ (xs ++ t).length :=
            List.IsSuffix.length_le (List.dropWhile_suffix is_py_space)
          rw [h1] at h2
          simp at h2
      simp [List.dropWhile_cons, ha]
  unfold py_strip_list
  rw [key (l.dropWhile is_py_space) (List.dropWhile_idempotent is_py_space l),
    List.rdropWhile_idempotent]

end StripLemmas

/-- A pattern is an initial segment of itself followed by anything. -/
theorem begins_with_append (pat l : List Char) : begins_with pat (pat ++ l) = true := by
  induction pat with
  | nil => rfl
  | cons c cs ih => simp [begins_with, ih]

/-- The first-match scan equals a `find?` over the keyword list with the
initial categories as default. -/
theorem scan_keywords_eq_find (cl : String) (l : List (String × List String)) :
    scan_keywords cl l
      = ((l.find? (fun kv => keyword_match cl kv)).map Prod.snd).getD default_categories := by
  induction l with
  | nil => rfl
  | cons kv rest ih =>
    by_cases h : keyword_match cl kv = true
    · rw [List.find?_cons_of_pos rest h]
      simp [scan_keywords, h]
    · rw [List.find?_cons_of_neg rest h]
      simp only [scan_keywords, h, if_false]
      exact ih

/-- Model environment: `GEMINI_API_KEY` unset. -/
def env_no_key : Env :=
  { gemini_api_key := false, invoke := fun _ _ => .error .invocationError }

/-- Model environment: configured, but every invocation raises. -/
def env_invoke_error : Env :=
  { gemini_api_key := true, invoke := fun _ _ => .error .invocationError }

/-- Model environment: configured, every invocation times out. -/
def env_timeout : Env :=
  { gemini_api_key := true, invoke := fun _ _ => .error .timeoutError }

/-- Model environment: configured, the model replies with a bare JSON
number. -/
def env_num_reply : Env :=
  { gemini_api_key := true, invoke := fun _ _ => .ok "42" }

/-- Model environment: configured, the model replies with a JSON object
that has a `title` key but no `tags` key. -/
def env_missing_tags : Env :=
  { gemini_api_key := true, invoke := fun _ _ => .ok "\x7b\"title\": \"T\"\x7d" }

/-- C1: for every non-empty content string and every existing-categories
list, both public operations return a well-formed `.ok` result, whatever
the environment does — whether the model is configured, and whether the
invocation or the extraction fails. -/
theorem operations_total (env : Env) (content : String) (cats : List String)
    (_h : content ≠ "") :
    (∃ r, (generate_summary_and_category env content cats).1 = .ok r)
    ∧ (∃ p, (generate_title_and_tags env content).1 = .ok p) := by
  constructor
  · unfold generate_summary_and_category
    by_cases hk : env.gemini_api_key = false
    · rw [if_pos hk]
      exact ⟨_, rfl⟩
    · rw [if_neg hk]
      rcases hA : summary_ai_attempt env content cats with e | d
      · simp [hA]
      · simp [hA]
  · unfold generate_title_and_tags
    by_cases hk : env.gemini_api_key = false
    · rw [if_pos hk]
      exact ⟨_, rfl⟩
    · rw [if_neg hk]
      rcases hA : title_ai_attempt env content with e | d
      · simp [hA]
      · simp [hA]

/-- Witness for C1 at a concrete non-empty input. -/
theorem operations_total_witness :
    "x" ≠ ""
    ∧ ((∃ r, (generate_summary_and_category env_no_key "x" []).1 = .ok r)
       ∧ (∃ p, (generate_title_and_tags env_no_key "x").1 = .ok p)) :=
  ⟨by decide, operations_total env_no_key "x" [] (by decide)⟩

/-- C2: the fallback title is the content unmodified when it has at most
30 characters, and the first 30 characters followed by the ellipsis
marker when strictly longer — in which case the result itself exceeds
30 characters. -/
theorem fallback_title_truncation_boundary (content : String) :
    (content.data.length ≤ 30 → fallback_title content = content)
    ∧ (30 < content.data.length →
        fallback_title content = (⟨content.data.take 30⟩ : String) ++ "..."
        ∧ 30 < (fallback_title content).data.length) := by
  constructor
  · intro h
    unfold fallback_title
    rw [if_neg (by omega)]
  · intro h
    unfold fallback_title
    rw [if_pos h]
    refine ⟨rfl, ?_⟩
    rw [String.data_append]
    have h3 : ("...".data).length = 3 := rfl
    rw [List.length_append, h3]
    have ht : ((⟨content.data.take 30⟩ : String)).data = content.data.take 30 := rfl
    rw [ht, List.length_take]
    omega

/-- Witness for C2 at a 31-character and a 30-character input. -/
theorem fallback_title_truncation_boundary_witness :
    (30 < "bbbbbbbbbbbbbbbbbbbbbbbbbbbbbbb".data.length
     ∧ fallback_title "bbbbbbbbbbbbbbbbbbbbbbbbbbbbbbb"
        = (⟨"bbbbbbbbbbbbbbbbbbbbbbbbbbbbbbb".data.take 30⟩ : String) ++ "...")
    ∧ fallback_title "bbbbbbbbbbbbbbbbbbbbbbbbbbbbbb" = "bbbbbbbbbbbbbbbbbbbbbbbbbbbbbb" :=
  ⟨⟨by decide,
    ((fallback_title_truncation_boundary "bbbbbbbbbbbbbbbbbbbbbbbbbbbbbbb").2 (by decide)).1⟩,
   (fallback_title_truncation_boundary "bbbbbbbbbbbbbbbbbbbbbbbbbbbbbb").1 (by decide)⟩

/-- C4: the fallback summary is the first 50 characters of the content,
with the ellipsis marker appended exactly when the content is strictly
longer than 50 characters; at 50 characters or fewer it is the content
itself. -/
theorem fallback_summary_truncation_boundary (content : String) :
    (content.data.length ≤ 50 → fallback_summary content = content)
    ∧ (50 < content.data.length →
        fallback_summary content = (⟨content.data.take 50⟩ : String) ++ "...") := by
  constructor
  · intro h
    unfold fallback_summary
    rw [if_neg (by omega), List.take_of_length_le h]
    apply String.ext
    rw [String.data_append]
    simp
  · intro h
    unfold fallback_summary
    rw [if_pos h]

/-- Witness for C4 at a 51-character and a 50-character input. -/
theorem fallback_summary_truncation_boundary_witness :
    (50 < "aaaaaaaaaaaaaaaaaaaaaaaaaaaaaaaaaaaaaaaaaaaaaaaaaaa".data.length
     ∧ fallback_summary "aaaaaaaaaaaaaaaaaaaaaaaaaaaaaaaaaaaaaaaaaaaaaaaaaaa"
        = (⟨"aaaaaaaaaaaaaaaaaaaaaaaaaaaaaaaaaaaaaaaaaaaaaaaaaaa".data.take 50⟩ : String) ++ "...")
    ∧ fallback_summary "aaaaaaaaaaaaaaaaaaaaaaaaaaaaaaaaaaaaaaaaaaaaaaaaaa"
        = "aaaaaaaaaaaaaaaaaaaaaaaaaaaaaaaaaaaaaaaaaaaaaaaaaa" :=
  ⟨⟨by decide,
    (fallback_summary_truncation_boundary
      "aaaaaaaaaaaaaaaaaaaaaaaaaaaaaaaaaaaaaaaaaaaaaaaaaaa").2 (by decide)⟩,
   (fallback_summary_truncation_boundary
      "aaaaaaaaaaaaaaaaaaaaaaaaaaaaaaaaaaaaaaaaaaaaaaaaaa").1 (by decide)⟩

/-- C3: the fallback categorizer is a first-match scan of the fixed
keyword list: the result is determined by the first keyword in list
order whose case-folded form occurs in the case-folded content; with no
match the generic triple stands; and content matching both the "python"
and the "翻訳" keywords (and not the earlier "コード" keyword) gets the
"python" triple, which comes earlier in the list. -/
theorem fallback_keyword_first_match :
    (∀ content, _fallback_categories content
        = ((keyword_map.find? (fun kv => keyword_match (py_lower content) kv)).map
            Prod.snd).getD default_categories)
    ∧ (∀ content, (∀ kv ∈ keyword_map, keyword_match (py_lower content) kv = false) →
        _fallback_categories content = default_categories)
    ∧ (∀ content,
        keyword_match (py_lower content) ("python", ["プログラミング", "Python", "開発"]) = true →
        keyword_match (py_lower content) ("翻訳", ["翻訳", "言語", "ローカライゼーション"]) = true →
        keyword_match (py_lower content) ("コード", ["プログラミング", "コード生成", "開発"]) = false →
        _fallback_categories content = ["プログラミング", "Python", "開発"]) := by
  refine ⟨fun content => scan_keywords_eq_find (py_lower content) keyword_map, ?_, ?_⟩
  · intro content hnone
    unfold _fallback_categories
    rw [scan_keywords_eq_find (py_lower content) keyword_map]
    rw [List.find?_eq_none.mpr (fun kv hkv => by simp [hnone kv hkv])]
    rfl
  · intro content hpy _htr hcode
    unfold _fallback_categories keyword_map
    rw [scan_keywords, if_neg (by simp [hcode]), scan_keywords, if_pos hpy]

/-- Witness for C3 at content containing both trigger keywords, where
the "翻訳" keyword occurs first in the text but "python" comes first in
the list. -/
theorem fallback_keyword_first_match_witness :
    (keyword_match (py_lower "翻訳をpythonで行う")
        ("python", ["プログラミング", "Python", "開発"]) = true
     ∧ keyword_match (py_lower "翻訳をpythonで行う")
        ("翻訳", ["翻訳", "言語", "ローカライゼーション"]) = true
     ∧ keyword_match (py_lower "翻訳をpythonで行う")
        ("コード", ["プログラミング", "コード生成", "開発"]) = false)
    ∧ _fallback_categories "翻訳をpythonで行う" = ["プログラミング", "Python", "開発"] :=
  ⟨⟨by decide, by decide, by decide⟩,
   fallback_keyword_first_match.2.2 "翻訳をpythonで行う" (by decide) (by decide) (by decide)⟩

/-- C10: both fallback paths are total on the empty string too: the
fallback summary of `""` is `""` with the generic category triple, and
the fallback title for `""` is `""` with no ellipsis marker (tags are
always `""`). -/
theorem fallback_paths_total_on_empty :
    _fallback_summary_and_category ""
      = .obj [("summary", .str ""), ("suggested_categories", .arr (default_categories.map .str))]
    ∧ fallback_title "" = ""
    ∧ generate_title_and_tags env_no_key "" = (.ok (.str "", .str ""), []) :=
  ⟨rfl, rfl, rfl⟩

/-- C7: when the model is not configured, both operations return the
fallback result and issue zero calls to the external client. -/
theorem no_config_short_circuit (env : Env) (content : String) (cats : List String)
    (h : env.gemini_api_key = false) :
    generate_summary_and_category env content cats
      = (.ok (_fallback_summary_and_category content), [])
    ∧ generate_title_and_tags env content
      = (.ok (.str (fallback_title content), .str ""), []) := by
  constructor
  · unfold generate_summary_and_category
    rw [if_pos h]
  · unfold generate_title_and_tags
    rw [if_pos h]

/-- Witness for C7 at a concrete unconfigured environment. -/
theorem no_config_short_circuit_witness :
    env_no_key.gemini_api_key = false
    ∧ (generate_summary_and_category env_no_key "hello" ["a"]
        = (.ok (_fallback_summary_and_category "hello"), [])
       ∧ generate_title_and_tags env_no_key "hello"
        = (.ok (.str (fallback_title "hello"), .str ""), [])) :=
  ⟨rfl, no_config_short_circuit env_no_key "hello" ["a"] rfl⟩

/-- C6: when the model is configured but the invocation raises, or the
reply fails JSON extraction, or the parsed value lacks the `title` or
`tags` key, `generate_title_and_tags` returns exactly the fallback pair
(truncated title, empty tags) — never a partially-filled structure. -/
theorem title_missing_field_fallback (env : Env) (content : String)
    (hk : env.gemini_api_key = true)
    (hfail :
      (∃ e, env.invoke title_llm_args (title_prompt content) = .error e)
      ∨ (∃ r, env.invoke title_llm_args (title_prompt content) = .ok r
          ∧ ((∃ e, _parse_llm_json_response r = .error e)
             ∨ (∃ d, _parse_llm_json_response r = .ok d
                 ∧ ((∃ e, py_getitem d "title" = .error e)
                    ∨ (∃ t, py_getitem d "title" = .ok t
                        ∧ ∃ e, py_getitem d "tags" = .error e)))))) :
    generate_title_and_tags env content
      = (.ok (.str (fallback_title content), .str ""),
         [(title_llm_args, title_prompt content)]) := by
  have hatt : ∃ e, title_ai_attempt env content = .error e := by
    rcases hfail with ⟨e, he⟩ | ⟨r, hr, hcase⟩
    · exact ⟨e, by simp only [title_ai_attempt, he]⟩
    · rcases hcase with ⟨e, he⟩ | ⟨d, hd, hcase2⟩
      · exact ⟨e, by simp only [title_ai_attempt, hr, he]⟩
      · rcases hcase2 with ⟨e, he⟩ | ⟨t, ht2, e, he⟩
        · exact ⟨e, by simp only [title_ai_attempt, hr, hd, he]⟩
        · exact ⟨e, by simp only [title_ai_attempt, hr, hd, ht2, he]⟩
  obtain ⟨e, he⟩ := hatt
  unfold generate_title_and_tags
  rw [if_neg (by simp [hk]), he]

/-- Witness for C6: a configured environment whose reply parses but
lacks the `tags` key yields the exact fallback pair. -/
theorem title_missing_field_fallback_witness :
    env_missing_tags.gemini_api_key = true
    ∧ generate_title_and_tags env_missing_tags "hello"
        = (.ok (.str (fallback_title "hello"), .str ""),
           [(title_llm_args, title_prompt "hello")]) :=
  ⟨rfl, title_missing_field_fallback env_missing_tags "hello" rfl
    (Or.inr ⟨"\x7b\"title\": \"T\"\x7d", rfl,
      Or.inr ⟨.obj [("title", .str "T")], rfl,
        Or.inr ⟨.str "T", rfl, .keyError "tags", rfl⟩⟩⟩)⟩

/-- C8 counterexample: the code issues its external calls through a
client constructed with only a model name and a temperature — the
timeout argument is left at its no-timeout default — so the calls are
not issued with a per-call timeout. -/
theorem llm_calls_issued_without_timeout :
    (generate_summary_and_category env_invoke_error "x" []).2
        = [(summary_llm_args, summary_prompt "x" [])]
    ∧ (generate_title_and_tags env_invoke_error "x").2
        = [(title_llm_args, title_prompt "x")]
    ∧ summary_llm_args.timeout = none
    ∧ title_llm_args.timeout = none :=
  ⟨rfl, rfl, rfl, rfl⟩

/-- C8 (amended): no per-call timeout is configured on the external
calls, but if the client raises a timeout error it is treated exactly
like any other invocation failure: both operations return their
fallback result. -/
theorem timeout_treated_as_invocation_failure (env : Env) (content : String)
    (cats : List String)
    (hk : env.gemini_api_key = true)
    (hs : env.invoke summary_llm_args (summary_prompt content cats) = .error .timeoutError)
    (ht : env.invoke title_llm_args (title_prompt content) = .error .timeoutError) :
    (generate_summary_and_category env content cats).1
        = .ok (_fallback_summary_and_category content)
    ∧ (generate_title_and_tags env content).1
        = .ok (.str (fallback_title content), .str "") := by
  constructor
  · have hA : summary_ai_attempt env content cats = .error .timeoutError := by
      simp only [summary_ai_attempt, hs]
    unfold generate_summary_and_category
    rw [if_neg (by simp [hk]), hA]
  · have hA : title_ai_attempt env content = .error .timeoutError := by
      simp only [title_ai_attempt, ht]
    unfold generate_title_and_tags
    rw [if_neg (by simp [hk]), hA]

/-- Witness for the amended C8 at an environment whose every invocation
times out. -/
theorem timeout_treated_as_invocation_failure_witness :
    env_timeout.gemini_api_key = true
    ∧ ((generate_summary_and_category env_timeout "x" []).1
        = .ok (_fallback_summary_and_category "x")
       ∧ (generate_title_and_tags env_timeout "x").1
        = .ok (.str (fallback_title "x"), .str "")) :=
  ⟨rfl, timeout_treated_as_invocation_failure env_timeout "x" [] rfl rfl rfl⟩

/-- C9: on the AI path of `generate_summary_and_category`, a
successfully parsed reply is returned to the caller verbatim, with no
validation of its shape; in particular a bare JSON number reaches the
caller even though it is not a well-formed `CategorySuggestion`. -/
theorem summary_reply_returned_verbatim :
    (∀ (env : Env) (content : String) (cats : List String) (r : String) (d : Json),
        env.gemini_api_key = true →
        env.invoke summary_llm_args (summary_prompt content cats) = .ok r →
        _parse_llm_json_response r = .ok d →
        (generate_summary_and_category env content cats).1 = .ok d)
    ∧ (generate_summary_and_category env_num_reply "hello" []).1 = .ok (.num 42)
    ∧ is_category_suggestion (.num 42) = false := by
  refine ⟨?_, ?_, rfl⟩
  · intro env content cats r d hk hi hp
    have hA : summary_ai_attempt env content cats = .ok d := by
      simp only [summary_ai_attempt, hi]
      exact hp
    unfold generate_summary_and_category
    rw [if_neg (by simp [hk]), hA]
  · rfl

/-- Witness for C9 at an environment replying with a bare JSON number. -/
theorem summary_reply_returned_verbatim_witness :
    (env_num_reply.gemini_api_key = true
     ∧ env_num_reply.invoke summary_llm_args (summary_prompt "hi" []) = .ok "42"
     ∧ _parse_llm_json_response "42" = .ok (.num 42))
    ∧ (generate_summary_and_category env_num_reply "hi" []).1 = .ok (.num 42) :=
  ⟨⟨rfl, rfl, rfl⟩,
   summary_reply_returned_verbatim.1 env_num_reply "hi" [] "42" (.num 42) rfl rfl rfl⟩


/-- Right-hand analogue of `dropWhile_append_of_ne_nil`. -/
theorem rdropWhile_append_of_ne_nil {α : Type} (p : α → Bool) (l w : List α)
    (h : List.rdropWhile p w ≠ []) :
    List.rdropWhile p (l ++ w) = l ++ List.rdropWhile p w := by
  have hw : w.reverse.dropWhile p ≠ [] := by
    intro hc
    apply h
    unfold List.rdropWhile
    rw [hc]
    rfl
  unfold List.rdropWhile
  rw [List.reverse_append, dropWhile_append_of_ne_nil p w.reverse l.reverse hw,
    List.reverse_append, List.reverse_reverse]

/-- C5: a JSON document wrapped in a markdown json code fence, with any
surrounding whitespace, is parsed by `_parse_llm_json_response` to the
same value as the bare document (for documents that do not themselves
look fence-wrapped after stripping). -/
theorem parse_llm_fence_tolerance (s w1 w2 : String)
    (hw1 : ∀ c ∈ w1.data, is_py_space c = true)
    (hw2 : ∀ c ∈ w2.data, is_py_space c = true)
    (hpre : begins_with "```json".data (py_strip_list s.data) = false)
    (hsuf : ends_with "```".data (py_strip_list s.data) = false) :
    _parse_llm_json_response (w1 ++ "```json\n" ++ s ++ "\n```" ++ w2)
      = _parse_llm_json_response s := by
  have hrhs : _parse_llm_json_response s = json_loads (py_strip_list s.data) := by
    unfold _parse_llm_json_response
    simp only [hpre, hsuf, Bool.false_eq_true, if_false]
    rw [py_strip_list_idem]
  have hdata : (w1 ++ "```json\n" ++ s ++ "\n```" ++ w2).data
      = w1.data ++ ("```json\n".data ++ s.data ++ "\n```".data) ++ w2.data := by
    simp only [String.data_append, List.append_assoc]
  have hMstrip : py_strip_list ("```json\n".data ++ s.data ++ "\n```".data)
      = "```json\n".data ++ s.data ++ "\n```".data := by
    unfold py_strip_list
    rw [List.append_assoc,
      dropWhile_append_of_ne_nil is_py_space "```json\n".data (s.data ++ "\n```".data)
        (by decide),
      (by decide : List.dropWhile is_py_space "```json\n".data = "```json\n".data),
      ← List.append_assoc,
      rdropWhile_append_of_ne_nil is_py_space ("```json\n".data ++ s.data) "\n```".data
        (by decide),
      (by decide : List.rdropWhile is_py_space "\n```".data = "\n```".data)]
  have hstrip_full : py_strip_list (w1 ++ "```json\n" ++ s ++ "\n```" ++ w2).data
      = "```json\n".data ++ s.data ++ "\n```".data := by
    rw [hdata, py_strip_list_pad w1.data w2.data _ hw1 hw2, hMstrip]
  have hassoc : "```json\n".data ++ s.data ++ "\n```".data
      = "```json".data ++ ("\n".data ++ s.data ++ "\n```".data) := by
    rw [(by decide : "```json\n".data = "```json".data ++ "\n".data)]
    simp only [List.append_assoc]
  have hb : begins_with "```json".data ("```json\n".data ++ s.data ++ "\n```".data) = true := by
    rw [hassoc]
    exact begins_with_append _ _
  have hdrop : List.drop 7 ("```json\n".data ++ s.data ++ "\n```".data)
      = "\n".data ++ s.data ++ "\n```".data := by
    rw [hassoc, ← (by decide : ("```json".data).length = 7), List.drop_left]
  have hsplit : "\n".data ++ s.data ++ "\n```".data
      = ("\n".data ++ s.data ++ "\n".data) ++ "```".data := by
    rw [(by decide : "\n```".data = "\n".data ++ "```".data)]
    simp only [List.append_assoc]
  have he : ends_with "```".data ("\n".data ++ s.data ++ "\n```".data) = true := by
    unfold ends_with
    rw [hsplit, List.reverse_append]
    exact begins_with_append _ _
  have hlen : ("\n".data ++ s.data ++ "\n```".data).length = s.data.length + 5 := by
    rw [List.length_append, List.length_append,
      (by decide : ("\n".data).length = 1), (by decide : ("\n```".data).length = 4)]
    omega
  have htake : List.take (("\n".data ++ s.data ++ "\n```".data).length - 3)
      ("\n".data ++ s.data ++ "\n```".data) = "\n".data ++ s.data ++ "\n".data := by
    rw [hlen, hsplit]
    apply List.take_left'
    rw [List.length_append, List.length_append,
      (by decide : ("\n".data).length = 1)]
    omega
  have hpad : py_strip_list ("\n".data ++ s.data ++ "\n".data) = py_strip_list s.data :=
    py_strip_list_pad "\n".data "\n".data s.data (by decide) (by decide)
  have hlhs : _parse_llm_json_response (w1 ++ "```json\n" ++ s ++ "\n```" ++ w2)
      = json_loads (py_strip_list s.data) := by
    unfold _parse_llm_json_response
    simp only [hstrip_full, hb, if_true, hdrop, he, htake, hpad]
  rw [hlhs, hrhs]

/-- Witness for C5 at the fenced and bare forms of a one-field object. -/
theorem parse_llm_fence_tolerance_witness :
    _parse_llm_json_response "\x7b\"a\":1\x7d" = .ok (.obj [("a", .num 1)])
    ∧ _parse_llm_json_response ("" ++ "```json\n" ++ "\x7b\"a\":1\x7d" ++ "\n```" ++ "")
        = _parse_llm_json_response "\x7b\"a\":1\x7d" :=
  ⟨rfl,
   parse_llm_fence_tolerance "\x7b\"a\":1\x7d" "" ""
     (by decide) (by decide) (by decide) (by decide)⟩
